import Mathlib

/-!
Verification of the dicognito batch orchestration pipeline, a shallow
embedding of the module src/dicognito/main (the command line entry point).
The external collaborators (pydicom, the os module, the glob module, the
logging module and the Anonymizer) are modelled as an explicit environment;
the orchestration logic itself is translated function by function from the
source.
-/

namespace Dicognito

/-- Errors that model Python exceptions raised during a run. -/
inductive PyErr where
  | invalidDicomError
  | valueError (msg : String)
  | attributeError (msg : String)
  | osError (msg : String)
  | anonymizationError (msg : String)
  | writeError (msg : String)
deriving DecidableEq, Repr

/-- Header fields of an in-memory decoded dataset that the orchestration
layer reads. Every field is optional: an absent field reads as none.
PatientName is stored as its textual representation. -/
structure Dataset where
  SOPInstanceUID : Option String := none
  AccessionNumber : Option String := none
  PatientID : Option String := none
  PatientName : Option String := none
deriving DecidableEq, Repr

/-- The ConvertedStudy namedtuple from the source: an immutable value
triple with structural equality. -/
structure ConvertedStudy where
  AccessionNumber : String
  PatientID : String
  PatientName : String
deriving DecidableEq, Repr

/-- Modelled from pydicom: the on-disk bytes of a candidate file,
abstracted to what dcmread inspects, namely whether the DICM preamble and
magic marker are present and the dataset the bytes decode to. -/
structure FileContent where
  hasDicmMarker : Bool
  data : Dataset
deriving DecidableEq, Repr

/-- Modelled from pydicom: dcmread with the force keyword. With force set
to false the read requires the DICM preamble and magic marker and raises
InvalidDicomError when the marker is missing; with force set to true the
bytes are read as a dataset regardless. -/
def dcmread (content : FileContent) (force : Bool) : Except PyErr Dataset :=
  if force || content.hasDicmMarker then Except.ok content.data
  else Except.error PyErr.invalidDicomError

/-- Observable side effects of a run, in the order they happen. -/
inductive Event where
  | makedirs (dir : String)
  | readFile (path : String) (force : Bool)
  | anonymizeCall (path : String)
  | saveAs (path : String)
deriving DecidableEq, Repr

/-- Whether an event is a directory creation. -/
def Event.isMakedirs : Event → Bool
  | .makedirs _ => true
  | _ => false

/-- The filesystem probes used by get_files_from_source: os.path.isfile,
os.path.isdir, os.walk (the dirpath, dirnames, filenames triples of the
recursive traversal of a directory, nested subdirectories included) and
glob.glob (the existing paths matching a pattern; an empty list when
nothing matches). -/
structure FS where
  isfile : String → Bool
  isdir : String → Bool
  walk : String → List (String × List String × List String)
  glob : String → List String

/-- External collaborators of the batch orchestration: the filesystem
probes, raw file reads (which can fail with an OS error and otherwise
yield the file bytes), the anonymize method of the Anonymizer (which
mutates a dataset, modelled functionally, and can fail), os.makedirs and
the save_as method of a dataset. -/
structure Env where
  fs : FS
  readFile : String → Except PyErr FileContent
  anonymize : Dataset → Except PyErr Dataset
  makedirs : String → Except PyErr Unit
  saveAs : String → Dataset → Except PyErr Unit

/-- The parsed command line arguments that the orchestration reads. The
options naming the id affixes and the seed are forwarded verbatim to the
external Anonymizer and are therefore absorbed into the anonymize field
of Env. -/
structure Args where
  sources : List String := []
  output_directory : Option String := none
  quiet : Bool := false
  log_level : String := "WARNING"
deriving DecidableEq, Repr

/-- Models os.path.join on a POSIX system for a relative second
component: a separator is inserted unless the first component is empty or
already ends with one. -/
def joinPath (a b : String) : String :=
  match a.data.getLast? with
  | none => b
  | some c => if c = '/' then a ++ b else a ++ "/" ++ b

/-- Models the upper method of Python strings for ASCII characters. -/
def charUpper (c : Char) : Char :=
  if 97 ≤ c.toNat ∧ c.toNat ≤ 122 then Char.ofNat (c.toNat - 32) else c

/-- Models the upper method of Python strings for ASCII contents. -/
def pyUpper (s : String) : String := String.mk (s.data.map charUpper)

/-- Modelled from the Python standard logging module: the module
attributes with integer values that an upper-cased attribute name can
reach through getattr. These are the level constants CRITICAL 50, FATAL
50, ERROR 40, WARNING 30, WARN 30, INFO 20, DEBUG 10 and NOTSET 0; every
other upper-cased name reaches no integer attribute, so the source then
raises ValueError. -/
def loggingLevelAttr : String → Option Nat
  | "CRITICAL" => some 50
  | "FATAL" => some 50
  | "ERROR" => some 40
  | "WARNING" => some 30
  | "WARN" => some 30
  | "INFO" => some 20
  | "DEBUG" => some 10
  | "NOTSET" => some 0
  | _ => none

/-- The nested generator get_files_from_source of main, with explicit fuel
bounding the recursion through glob matches (in a real filesystem every
glob match is an existing path, so the recursion is shallow). -/
def get_files_from_source (fs : FS) : Nat → String → List String
  | 0, _ => []
  | fuel + 1, source =>
    if fs.isfile source then [source]
    else if fs.isdir source then
      (fs.walk source).flatMap (fun w => w.2.2.map (fun filename => joinPath w.1 filename))
    else
      (fs.glob source).flatMap (get_files_from_source fs fuel)

/-- Python truthiness of an optional string argument value. -/
def truthy : Option String → Bool
  | none => false
  | some s => !s.isEmpty

/-- The ensure_output_directory_exists helper of main: when an output
directory is configured and is not already a directory, create it with
os.makedirs, which also creates missing parents. Returns the directory
creation event performed, if any, and the error when creation fails. -/
def ensure_output_directory_exists (env : Env) (args : Args) : List Event × Option PyErr :=
  if truthy args.output_directory && !env.fs.isdir (args.output_directory.getD "") then
    match env.makedirs (args.output_directory.getD "") with
    | Except.ok _ => ([Event.makedirs (args.output_directory.getD "")], none)
    | Except.error e => ([Event.makedirs (args.output_directory.getD "")], some e)
  else ([], none)

/-- The calculate_output_filename helper of main: the original path when
no output directory is configured, otherwise the join of the output
directory with the SOPInstanceUID of the dataset plus the dcm extension.
Reading SOPInstanceUID as an attribute raises AttributeError when the
dataset lacks the field (pydicom behavior), modelled as an error result. -/
def calculate_output_filename (file : String) (args : Args) (dataset : Dataset) :
    Except PyErr String :=
  if truthy args.output_directory then
    match dataset.SOPInstanceUID with
    | some uid => Except.ok (joinPath (args.output_directory.getD "") (uid ++ ".dcm"))
    | none => Except.error (PyErr.attributeError "SOPInstanceUID")
  else Except.ok file

/-- The message of the info-level log line for a skipped file, after
percent formatting. -/
def skipMessage (file : String) : String :=
  "File " ++ file ++ " appears not to be DICOM. Skipping."

/-- The numeric severity of logging.info calls. -/
def INFO : Nat := 20

/-- The ConvertedStudy record built from a dataset after anonymization:
each field read with the get method and an empty string default, the
patient name through its textual representation. -/
def convertedStudyOf (dataset : Dataset) : ConvertedStudy :=
  { AccessionNumber := dataset.AccessionNumber.getD ""
    PatientID := dataset.PatientID.getD ""
    PatientName := dataset.PatientName.getD "" }

/-- One iteration of the inner loop body of main (the try block): read the
file with pydicom.dcmread and force set to false, anonymize the dataset,
compute the output filename, save the dataset there, and build the
ConvertedStudy record. Returns the events performed and either the record
or the first error raised. -/
def anonymize_one (env : Env) (args : Args) (file : String) :
    List Event × Except PyErr ConvertedStudy :=
  match env.readFile file with
  | Except.error e => ([Event.readFile file false], Except.error e)
  | Except.ok content =>
    match dcmread content false with
    | Except.error e => ([Event.readFile file false], Except.error e)
    | Except.ok dataset =>
      match env.anonymize dataset with
      | Except.error e =>
          ([Event.readFile file false, Event.anonymizeCall file], Except.error e)
      | Except.ok dataset2 =>
        match calculate_output_filename file args dataset2 with
        | Except.error e =>
            ([Event.readFile file false, Event.anonymizeCall file], Except.error e)
        | Except.ok output_file =>
          match env.saveAs output_file dataset2 with
          | Except.error e =>
              ([Event.readFile file false, Event.anonymizeCall file,
                Event.saveAs output_file], Except.error e)
          | Except.ok _ =>
              ([Event.readFile file false, Event.anonymizeCall file,
                Event.saveAs output_file], Except.ok (convertedStudyOf dataset2))

/-- Python set.add with structural equality: insertion is idempotent. -/
def setAdd (registry : List ConvertedStudy) (s : ConvertedStudy) : List ConvertedStudy :=
  if s ∈ registry then registry else registry ++ [s]

/-- The mutable state of the per-file loop of main: the events performed so
far, the log lines emitted so far as severity and message pairs, and the
converted_studies set in insertion order. -/
structure LoopState where
  events : List Event := []
  logs : List (Nat × String) := []
  registry : List ConvertedStudy := []
deriving DecidableEq, Repr

/-- The per-file loop of main with its try and except handler: an
InvalidDicomError is logged at info severity and the file is skipped with
no registry entry; any other error aborts the loop and propagates. -/
def process_files (env : Env) (args : Args) :
    List String → LoopState → LoopState × Option PyErr
  | [], st => (st, none)
  | file :: rest, st =>
    match anonymize_one env args file with
    | (evs, Except.ok record) =>
      process_files env args rest
        { events := st.events ++ evs, logs := st.logs,
          registry := setAdd st.registry record }
    | (evs, Except.error e) =>
      if e = PyErr.invalidDicomError then
        process_files env args rest
          { events := st.events ++ evs,
            logs := st.logs ++ [(INFO, skipMessage file)],
            registry := st.registry }
      else
        ({ events := st.events ++ evs, logs := st.logs, registry := st.registry }, some e)

/-- Python percent formatting with a minus sixteen conversion: left
justification to a minimum width of sixteen characters, never truncating. -/
def ljust (width : Nat) (s : String) : String :=
  s ++ String.mk (List.replicate (width - s.data.length) ' ')

/-- One line of the summary table, the format string of the source with two
left-justified width sixteen columns and an unpadded third column. -/
def formatRow (a b c : String) : String :=
  ljust 16 a ++ " " ++ ljust 16 b ++ " " ++ c

/-- A run of dashes as long as the given header. -/
def dashesFor (h : String) : String := String.mk (List.replicate h.data.length '-')

/-- The first column header. -/
def headerAccession : String := "Accession Number"

/-- The second column header. -/
def headerPatientID : String := "Patient ID"

/-- The third column header. -/
def headerPatientName : String := "Patient Name"

/-- The printed header row. -/
def headerLine : String := formatRow headerAccession headerPatientID headerPatientName

/-- The printed separator row: a run of dashes per header, padded like the
data rows. -/
def sepLine : String :=
  formatRow (dashesFor headerAccession) (dashesFor headerPatientID) (dashesFor headerPatientName)

/-- The sort key order of the summary: ascending by the pair of PatientID
and AccessionNumber, compared as Python compares tuples of strings
(lexicographically on the pair, strings by code points). -/
def keyRel (a b : ConvertedStudy) : Prop :=
  a.PatientID < b.PatientID ∨
    (a.PatientID = b.PatientID ∧ a.AccessionNumber ≤ b.AccessionNumber)

instance : DecidableRel keyRel := fun a b => by
  unfold keyRel; exact inferInstance

instance : IsTotal ConvertedStudy keyRel where
  total a b := by
    rcases lt_trichotomy a.PatientID b.PatientID with h | h | h
    · exact Or.inl (Or.inl h)
    · rcases le_total a.AccessionNumber b.AccessionNumber with h2 | h2
      · exact Or.inl (Or.inr ⟨h, h2⟩)
      · exact Or.inr (Or.inr ⟨h.symm, h2⟩)
    · exact Or.inr (Or.inl h)

instance : IsTrans ConvertedStudy keyRel where
  trans a b c hab hbc := by
    rcases hab with h1 | ⟨h1, h1b⟩
    · rcases hbc with h2 | ⟨h2, _⟩
      · exact Or.inl (h1.trans h2)
      · exact Or.inl (h2 ▸ h1)
    · rcases hbc with h2 | ⟨h2, h2b⟩
      · exact Or.inl (h1 ▸ h2)
      · exact Or.inr ⟨h1.trans h2, h1b.trans h2b⟩

/-- Python sorted with the key function of the source: a stable sort by
the pair of PatientID and AccessionNumber. -/
def sortStudies (registry : List ConvertedStudy) : List ConvertedStudy :=
  List.insertionSort keyRel registry

/-- The summary table printed at the end of main: header row, dash
separator row, and one row per registry record in sorted order. -/
def renderTable (registry : List ConvertedStudy) : List String :=
  headerLine :: sepLine ::
    (sortStudies registry).map (fun s => formatRow s.AccessionNumber s.PatientID s.PatientName)

/-- The outcome of a run: events performed, log lines, the final
converted_studies registry, the lines printed to standard output, and the
uncaught error when the run aborted. -/
structure RunResult where
  events : List Event := []
  logs : List (Nat × String) := []
  registry : List ConvertedStudy := []
  printed : List String := []
  err : Option PyErr := none
deriving DecidableEq, Repr

/-- The body of main after argument parsing: validate the log level
through getattr on the logging module (raising ValueError when the
upper-cased name reaches no integer attribute), ensure the output
directory exists, expand every source and process every resolved file,
and finally print the summary table unless quiet. An uncaught error
aborts the run at the point it is raised. -/
def main (env : Env) (fuel : Nat) (args : Args) : RunResult :=
  match loggingLevelAttr (pyUpper args.log_level) with
  | none =>
      { err := some (PyErr.valueError ("Invalid log level: " ++ args.log_level)) }
  | some _ =>
    match ensure_output_directory_exists env args with
    | (evs, some e) => { events := evs, err := some e }
    | (evs, none) =>
      match process_files env args
          (args.sources.flatMap (get_files_from_source env.fs fuel)) { events := evs } with
      | (st, some e) =>
          { events := st.events, logs := st.logs, registry := st.registry, err := some e }
      | (st, none) =>
          { events := st.events, logs := st.logs, registry := st.registry,
            printed := if args.quiet then [] else renderTable st.registry, err := none }

/-! Concrete fixtures used to evaluate the embedding on closed inputs. -/

/-- A dataset carrying all four fields that the orchestration reads. -/
def dsGood : Dataset :=
  { SOPInstanceUID := some "U1", AccessionNumber := some "A", PatientID := some "P",
    PatientName := some "N" }

/-- An empty filesystem. -/
def fs0 : FS :=
  { isfile := fun _ => false, isdir := fun _ => false,
    walk := fun _ => [], glob := fun _ => [] }

/-- An environment where the path good holds a marked DICOM file and every
other path holds bytes without the DICM marker. -/
def envT : Env :=
  { fs := fs0
    readFile := fun p =>
      if p = "good" then Except.ok { hasDicmMarker := true, data := dsGood }
      else Except.ok { hasDicmMarker := false, data := {} }
    anonymize := fun d => Except.ok d
    makedirs := fun _ => Except.ok ()
    saveAs := fun _ _ => Except.ok () }

/-- A filesystem with two plain files reachable through a glob. -/
def fsT : FS :=
  { fs0 with
    isfile := fun p => p == "good" || p == "bad"
    glob := fun p => if p = "*" then ["good", "bad"] else [] }

/-- The environment envT over the filesystem fsT. -/
def envT2 : Env := { envT with fs := fsT }

/-- An environment whose directory creation fails. -/
def envMkFail : Env :=
  { envT with makedirs := fun _ => Except.error (PyErr.osError "denied") }

/-- An environment where every path reads as a marked DICOM file whose
dataset carries the same identifying triple. -/
def envC3 : Env :=
  { envT with readFile := fun _ => Except.ok { hasDicmMarker := true, data := dsGood } }

/-- An environment where every path reads as a marked DICOM file whose
dataset lacks SOPInstanceUID. -/
def envC5 : Env :=
  { envT with readFile := fun _ => Except.ok { hasDicmMarker := true, data := {} } }

/-- A filesystem exercising all three dispatch branches of
get_files_from_source: a plain file, a directory with a nested walk, a
glob with one match and globs with none. -/
def fsW : FS :=
  { isfile := fun p => p == "a.dcm"
    isdir := fun p => p == "d"
    walk := fun p => if p = "d" then [("d", ["sub"], ["x"]), ("d/sub", [], ["y"])] else []
    glob := fun p => if p = "g*" then ["a.dcm"] else [] }

/-- Arguments selecting the output directory out. -/
def argsOut : Args := { output_directory := some "out" }

/-! Helper lemmas about the loop and the run. -/

theorem anonymize_one_events_no_makedirs (env : Env) (args : Args) (file : String) :
    List.countP Event.isMakedirs (anonymize_one env args file).1 = 0 := by
  unfold anonymize_one
  repeat' split
  all_goals simp [Event.isMakedirs]

theorem process_files_events_tail (env : Env) (args : Args) (files : List String) :
    ∀ st : LoopState, ∃ tail,
      ((process_files env args files st).1).events = st.events ++ tail ∧
        List.countP Event.isMakedirs tail = 0 := by
  induction files with
  | nil => intro st; exact ⟨[], by simp [process_files], by simp⟩
  | cons file rest ih =>
    intro st
    have hA := anonymize_one_events_no_makedirs env args file
    rcases hEq : anonymize_one env args file with ⟨evs, res⟩
    rw [hEq] at hA
    simp only at hA
    cases res with
    | ok record =>
      rcases ih { events := st.events ++ evs, logs := st.logs,
                  registry := setAdd st.registry record } with ⟨tail, h1, h2⟩
      refine ⟨evs ++ tail, ?_, ?_⟩
      · simp only [process_files, hEq]
        rw [h1]; simp
      · simp [List.countP_append, hA, h2]
    | error e =>
      by_cases he : e = PyErr.invalidDicomError
      · subst he
        rcases ih { events := st.events ++ evs,
                    logs := st.logs ++ [(INFO, skipMessage file)],
                    registry := st.registry } with ⟨tail, h1, h2⟩
        refine ⟨evs ++ tail, ?_, ?_⟩
        · simp only [process_files, hEq, ite_true]
          rw [h1]; simp
        · simp [List.countP_append, hA, h2]
      · refine ⟨evs, ?_, hA⟩
        simp only [process_files, hEq, if_neg he]

theorem setAdd_mem_self (r : List ConvertedStudy) (s : ConvertedStudy) : s ∈ setAdd r s := by
  unfold setAdd
  split
  · assumption
  · simp

theorem setAdd_mem_of_mem {r : List ConvertedStudy} {t : ConvertedStudy}
    (h : t ∈ r) (s : ConvertedStudy) : t ∈ setAdd r s := by
  unfold setAdd
  split
  · exact h
  · exact List.mem_append_left _ h

theorem setAdd_nodup {r : List ConvertedStudy} (h : r.Nodup) (s : ConvertedStudy) :
    (setAdd r s).Nodup := by
  unfold setAdd
  split
  · exact h
  · next hs => simp [List.nodup_append, h, hs]

theorem process_files_registry_mono (env : Env) (args : Args) (files : List String) :
    ∀ st : LoopState, ∀ t, t ∈ st.registry →
      t ∈ ((process_files env args files st).1).registry := by
  induction files with
  | nil => intro st t h; simpa [process_files] using h
  | cons file rest ih =>
    intro st t h
    rcases hEq : anonymize_one env args file with ⟨evs, res⟩
    cases res with
    | ok record =>
      simp only [process_files, hEq]
      exact ih _ t (setAdd_mem_of_mem h record)
    | error e =>
      by_cases he : e = PyErr.invalidDicomError
      · subst he
        simp only [process_files, hEq, ite_true]
        exact ih _ t h
      · simp only [process_files, hEq, if_neg he]
        exact h

theorem process_files_registry_nodup (env : Env) (args : Args) (files : List String) :
    ∀ st : LoopState, st.registry.Nodup →
      ((process_files env args files st).1).registry.Nodup := by
  induction files with
  | nil => intro st h; simpa [process_files] using h
  | cons file rest ih =>
    intro st h
    rcases hEq : anonymize_one env args file with ⟨evs, res⟩
    cases res with
    | ok record =>
      simp only [process_files, hEq]
      exact ih _ (setAdd_nodup h record)
    | error e =>
      by_cases he : e = PyErr.invalidDicomError
      · subst he
        simp only [process_files, hEq, ite_true]
        exact ih _ h
      · simp only [process_files, hEq, if_neg he]
        exact h

theorem process_files_mem_of_ok (env : Env) (args : Args) (files : List String) :
    ∀ st : LoopState, (process_files env args files st).2 = none →
      ∀ f ∈ files, ∀ t, (anonymize_one env args f).2 = Except.ok t →
        t ∈ ((process_files env args files st).1).registry := by
  induction files with
  | nil => intro st _ f hf; exact absurd hf (List.not_mem_nil f)
  | cons file rest ih =>
    intro st hnone f hf t ht
    rcases hEq : anonymize_one env args file with ⟨evs, res⟩
    cases res with
    | ok record =>
      simp only [process_files, hEq] at hnone ⊢
      rcases List.mem_cons.1 hf with hfe | hfr
      · subst hfe
        rw [hEq] at ht
        simp only at ht
        cases ht
        exact process_files_registry_mono env args rest _ t (setAdd_mem_self st.registry t)
      · exact ih _ hnone f hfr t ht
    | error e =>
      by_cases he : e = PyErr.invalidDicomError
      · subst he
        simp only [process_files, hEq, ite_true] at hnone ⊢
        rcases List.mem_cons.1 hf with hfe | hfr
        · subst hfe
          rw [hEq] at ht
          simp only at ht
          exact Except.noConfusion ht
        · exact ih _ hnone f hfr t ht
      · simp only [process_files, hEq, if_neg he] at hnone
        exact Option.noConfusion hnone

theorem ensure_shape (env : Env) (args : Args) :
    (ensure_output_directory_exists env args).1 = [] ∨
      (ensure_output_directory_exists env args).1 =
        [Event.makedirs (args.output_directory.getD "")] := by
  unfold ensure_output_directory_exists
  split
  · split <;> simp
  · simp

theorem main_events_shape (env : Env) (fuel : Nat) (args : Args) :
    ∃ pre tail, (main env fuel args).events = pre ++ tail ∧
      (pre = [] ∨ pre = [Event.makedirs (args.output_directory.getD "")]) ∧
      List.countP Event.isMakedirs tail = 0 := by
  unfold main
  cases hL : loggingLevelAttr (pyUpper args.log_level) with
  | none => exact ⟨[], [], rfl, Or.inl rfl, rfl⟩
  | some lvl =>
    have hshape := ensure_shape env args
    rcases hE : ensure_output_directory_exists env args with ⟨evs, oe⟩
    rw [hE] at hshape
    simp only at hshape
    cases oe with
    | some e => exact ⟨evs, [], by simp, hshape, rfl⟩
    | none =>
      rcases process_files_events_tail env args
        (args.sources.flatMap (get_files_from_source env.fs fuel)) { events := evs }
        with ⟨tail, h1, h2⟩
      rcases hP : process_files env args
          (args.sources.flatMap (get_files_from_source env.fs fuel)) { events := evs }
        with ⟨st, oe2⟩
      rw [hP] at h1
      simp only at h1
      cases oe2 with
      | some e => exact ⟨evs, tail, by dsimp only; rw [hP]; exact h1, hshape, h2⟩
      | none => exact ⟨evs, tail, by dsimp only; rw [hP]; exact h1, hshape, h2⟩

/-! Claim theorems. -/

/-- C1 counterexample: the claim states that the per-candidate read does
not require a valid preamble/magic marker. On a concrete candidate whose
bytes lack the DICM marker, the read the source performs (dcmread with
force set to false) fails with InvalidDicomError instead of succeeding,
so the loop body yields that error. -/
theorem C1_counterexample :
    dcmread { hasDicmMarker := false, data := {} } false =
      Except.error PyErr.invalidDicomError
    ∧ (anonymize_one envT {} "f").2 = Except.error PyErr.invalidDicomError :=
  ⟨rfl, rfl⟩

/-- C1 amended: for every candidate file, the source opens it through the
external codec with force set to false, the strict mode: the read
succeeds exactly on contents carrying the DICM preamble and magic marker,
and a candidate whose bytes lack the marker makes the loop body raise
InvalidDicomError (which the per-file handler then treats as the skip
condition). -/
theorem C1_strict_read (env : Env) (args : Args) (file : String) :
    (∀ content, dcmread content false =
        if content.hasDicmMarker then Except.ok content.data
        else Except.error PyErr.invalidDicomError)
    ∧ (∀ content, env.readFile file = Except.ok content → content.hasDicmMarker = false →
        (anonymize_one env args file).2 = Except.error PyErr.invalidDicomError) := by
  constructor
  · intro content
    unfold dcmread
    cases h : content.hasDicmMarker <;> simp [h]
  · intro content hr hm
    unfold anonymize_one
    rw [hr]
    simp [dcmread, hm]

/-- C1 witness: the amended claim applied to a concrete markerless file. -/
theorem C1_strict_read_witness :
    (anonymize_one envT { quiet := true } "f").2 = Except.error PyErr.invalidDicomError :=
  (C1_strict_read envT { quiet := true } "f").2 { hasDicmMarker := false, data := {} } rfl rfl

/-- C4: get_files_from_source dispatches in order: a source naming an
existing regular file yields exactly that path; else a source naming an
existing directory yields every file found by the recursive walk, each
joined to its directory path; else the source is treated as a glob
pattern whose every match is recursively re-expanded, and a glob matching
nothing contributes zero paths with no error (the expansion is a total
function into path lists). -/
theorem C4_expand_dispatch (fs : FS) (fuel : Nat) (source : String) :
    (fs.isfile source = true → get_files_from_source fs (fuel + 1) source = [source])
    ∧ (fs.isfile source = false → fs.isdir source = true →
        get_files_from_source fs (fuel + 1) source =
          (fs.walk source).flatMap
            (fun w => w.2.2.map (fun filename => joinPath w.1 filename)))
    ∧ (fs.isfile source = false → fs.isdir source = false →
        get_files_from_source fs (fuel + 1) source =
          (fs.glob source).flatMap (get_files_from_source fs fuel)
        ∧ (fs.glob source = [] → get_files_from_source fs (fuel + 1) source = [])) := by
  refine ⟨?_, ?_, ?_⟩
  · intro h1
    simp [get_files_from_source, h1]
  · intro h1 h2
    simp [get_files_from_source, h1, h2]
  · intro h1 h2
    constructor
    · simp [get_files_from_source, h1, h2]
    · intro h3
      simp [get_files_from_source, h1, h2, h3]

/-- C4 witness: the three dispatch branches and the empty glob, evaluated
on a concrete filesystem with a nested directory walk. -/
theorem C4_expand_dispatch_witness :
    get_files_from_source fsW 2 "a.dcm" = ["a.dcm"]
    ∧ get_files_from_source fsW 2 "d" = ["d/x", "d/sub/y"]
    ∧ get_files_from_source fsW 2 "g*" = ["a.dcm"]
    ∧ get_files_from_source fsW 2 "nomatch*" = [] :=
  ⟨(C4_expand_dispatch fsW 1 "a.dcm").1 rfl,
   ((C4_expand_dispatch fsW 1 "d").2.1 rfl rfl).trans (by decide),
   (((C4_expand_dispatch fsW 1 "g*").2.2 rfl rfl).1).trans (by decide),
   ((C4_expand_dispatch fsW 1 "nomatch*").2.2 rfl rfl).2 rfl⟩

/-- C5: calculate_output_filename returns the original path unchanged
when no output directory is configured; when one is configured it returns
the join of the output directory and SOPInstanceUID plus the dcm
extension, and when SOPInstanceUID is absent from the post-anonymization
dataset the AttributeError propagates out of the per-file loop (it is not
the skip condition) rather than producing a malformed path. -/
theorem C5_output_filename (env : Env) (args : Args) (file : String) (dataset : Dataset) :
    (truthy args.output_directory = false →
        calculate_output_filename file args dataset = Except.ok file)
    ∧ (∀ dir, args.output_directory = some dir → dir.isEmpty = false →
        (∀ uid, dataset.SOPInstanceUID = some uid →
            calculate_output_filename file args dataset =
              Except.ok (joinPath dir (uid ++ ".dcm")))
        ∧ (dataset.SOPInstanceUID = none →
            calculate_output_filename file args dataset =
              Except.error (PyErr.attributeError "SOPInstanceUID")))
    ∧ (∀ content dataset2 rest st, env.readFile file = Except.ok content →
        content.hasDicmMarker = true → env.anonymize content.data = Except.ok dataset2 →
        dataset2.SOPInstanceUID = none → truthy args.output_directory = true →
        (process_files env args (file :: rest) st).2 =
          some (PyErr.attributeError "SOPInstanceUID")) := by
  refine ⟨?_, ?_, ?_⟩
  · intro h
    simp [calculate_output_filename, h]
  · intro dir hod hne
    constructor
    · intro uid huid
      simp [calculate_output_filename, truthy, hod, hne, huid]
    · intro hnone
      simp [calculate_output_filename, truthy, hod, hne, hnone]
  · intro content dataset2 rest st hr hm han hs ht
    have hA : anonymize_one env args file =
        ([Event.readFile file false, Event.anonymizeCall file],
          Except.error (PyErr.attributeError "SOPInstanceUID")) := by
      unfold anonymize_one
      rw [hr]
      simp [dcmread, hm, han, calculate_output_filename, ht, hs]
    simp only [process_files, hA]
    rw [if_neg (by simp)]

/-- C5 witness: the in-place branch, the copy-out branch, the missing
SOPInstanceUID error, and its propagation out of the loop, on concrete
inputs. -/
theorem C5_output_filename_witness :
    calculate_output_filename "orig.dcm" {} dsGood = Except.ok "orig.dcm"
    ∧ calculate_output_filename "orig.dcm" argsOut dsGood =
        Except.ok (joinPath "out" ("U1" ++ ".dcm"))
    ∧ calculate_output_filename "orig.dcm" argsOut {} =
        Except.error (PyErr.attributeError "SOPInstanceUID")
    ∧ (process_files envC5 argsOut ["f"] {}).2 =
        some (PyErr.attributeError "SOPInstanceUID") :=
  ⟨(C5_output_filename envC5 {} "orig.dcm" dsGood).1 rfl,
   ((C5_output_filename envC5 argsOut "orig.dcm" dsGood).2.1 "out" rfl rfl).1 "U1" rfl,
   ((C5_output_filename envC5 argsOut "orig.dcm" {}).2.1 "out" rfl rfl).2 rfl,
   (C5_output_filename envC5 argsOut "f" {}).2.2 { hasDicmMarker := true, data := {} } {}
     [] {} rfl rfl rfl rfl rfl⟩

/-- C2: in the per-file loop, a candidate whose processing raises
InvalidDicomError is logged at informational severity and skipped with
the registry untouched, and the loop continues with the remaining
candidates; any other error aborts the loop immediately with that error,
and main reports it as the uncaught error of the run. -/
theorem C2_skip_or_propagate (env : Env) (args : Args) (fuel : Nat) (file : String)
    (rest : List String) (st : LoopState) :
    ((anonymize_one env args file).2 = Except.error PyErr.invalidDicomError →
        process_files env args (file :: rest) st =
          process_files env args rest
            { events := st.events ++ (anonymize_one env args file).1,
              logs := st.logs ++ [(INFO, skipMessage file)],
              registry := st.registry })
    ∧ (∀ e, (anonymize_one env args file).2 = Except.error e →
        e ≠ PyErr.invalidDicomError →
        process_files env args (file :: rest) st =
          ({ events := st.events ++ (anonymize_one env args file).1,
             logs := st.logs, registry := st.registry }, some e))
    ∧ (∀ lvl evs stf e, loggingLevelAttr (pyUpper args.log_level) = some lvl →
        ensure_output_directory_exists env args = (evs, none) →
        process_files env args
            (args.sources.flatMap (get_files_from_source env.fs fuel))
            { events := evs } = (stf, some e) →
        (main env fuel args).err = some e) := by
  refine ⟨?_, ?_, ?_⟩
  · intro h
    rcases hEq : anonymize_one env args file with ⟨evs, res⟩
    rw [hEq] at h
    simp only at h
    subst h
    simp only [process_files, hEq, ite_true]
  · intro e h he
    rcases hEq : anonymize_one env args file with ⟨evs, res⟩
    rw [hEq] at h
    simp only at h
    subst h
    simp only [process_files, hEq, if_neg he]
  · intro lvl evs stf e hL hE hP
    unfold main
    rw [hL]
    dsimp only
    rw [hE]
    dsimp only
    rw [hP]

/-- C2 witness: one unrecognized candidate followed by one recognized
candidate: the first is skipped with one info log line and no registry
entry, the second is processed, and the loop finishes with exactly one
registry record and no uncaught error. -/
theorem C2_skip_or_propagate_witness :
    (anonymize_one envT {} "bad").2 = Except.error PyErr.invalidDicomError
    ∧ process_files envT {} ["bad", "good"] {} =
        ({ events := [Event.readFile "bad" false, Event.readFile "good" false,
             Event.anonymizeCall "good", Event.saveAs "good"],
           logs := [(INFO, skipMessage "bad")],
           registry := [convertedStudyOf dsGood] }, none) := by
  refine ⟨rfl, ?_⟩
  rw [(C2_skip_or_propagate envT {} 0 "bad" ["good"] {}).1 rfl]
  decide

/-- C3: the converted_studies registry is a set of structurally
deduplicated triples: from a duplicate-free state it stays duplicate-free,
so no two registry elements are structurally equal and every member
occurs exactly once; and on a loop run that completes without an uncaught
error every successfully processed file has its triple in the final
registry, files with identical triples collapsing to one shared record. -/
theorem C3_registry_set (env : Env) (args : Args) (files : List String) (st : LoopState) :
    (st.registry.Nodup →
        ((process_files env args files st).1).registry.Nodup
        ∧ ∀ t, t ∈ ((process_files env args files st).1).registry →
            List.count t ((process_files env args files st).1).registry = 1)
    ∧ ((process_files env args files st).2 = none →
        ∀ f ∈ files, ∀ t, (anonymize_one env args f).2 = Except.ok t →
          t ∈ ((process_files env args files st).1).registry) := by
  constructor
  · intro h
    have hn := process_files_registry_nodup env args files st h
    exact ⟨hn, fun t ht => List.count_eq_one_of_mem hn ht⟩
  · intro hnone f hf t ht
    exact process_files_mem_of_ok env args files st hnone f hf t ht

/-- C3 witness: two distinct files whose post-anonymization datasets
yield the identical triple produce a registry with exactly one record. -/
theorem C3_registry_set_witness :
    (process_files envC3 {} ["f1", "f2"] {}).1.registry = [convertedStudyOf dsGood]
    ∧ List.count (convertedStudyOf dsGood)
        (process_files envC3 {} ["f1", "f2"] {}).1.registry = 1
    ∧ convertedStudyOf dsGood ∈ (process_files envC3 {} ["f1", "f2"] {}).1.registry := by
  refine ⟨by decide, ?_, ?_⟩
  · exact ((C3_registry_set envC3 {} ["f1", "f2"] {}).1 (by decide)).2
      (convertedStudyOf dsGood) (by decide)
  · exact (C3_registry_set envC3 {} ["f1", "f2"] {}).2 (by decide) "f1" (by decide)
      (convertedStudyOf dsGood) rfl

/-- C6: at most one directory creation happens in a run and any creation
precedes every other event, in particular every file read; when an output
directory is configured that is not already a directory and the log level
is valid, the creation is performed when os.makedirs succeeds, and when
os.makedirs fails the whole run aborts with that error before any file is
processed: no event besides the attempted creation, no log line, no
registry entry and no printed output. -/
theorem C6_makedirs_once_first (env : Env) (fuel : Nat) (args : Args) :
    List.countP Event.isMakedirs (main env fuel args).events ≤ 1
    ∧ List.countP Event.isMakedirs
        (List.dropWhile Event.isMakedirs (main env fuel args).events) = 0
    ∧ (∀ lvl d, loggingLevelAttr (pyUpper args.log_level) = some lvl →
        args.output_directory = some d → d.isEmpty = false → env.fs.isdir d = false →
        ((env.makedirs d = Except.ok () →
            Event.makedirs d ∈ (main env fuel args).events)
         ∧ (∀ e, env.makedirs d = Except.error e →
             main env fuel args = { events := [Event.makedirs d], err := some e }))) := by
  obtain ⟨pre, tail, hev, hpre, htail⟩ := main_events_shape env fuel args
  refine ⟨?_, ?_, ?_⟩
  · rw [hev, List.countP_append, htail]
    rcases hpre with h | h <;> subst h <;> simp [Event.isMakedirs]
  · rw [hev]
    have hle := List.Sublist.countP_le Event.isMakedirs
      (List.dropWhile_sublist (l := tail) Event.isMakedirs)
    rcases hpre with h | h <;> subst h
    · simp only [List.nil_append]
      omega
    · simp only [List.singleton_append, List.dropWhile_cons]
      simp only [Event.isMakedirs, ite_true]
      omega
  · intro lvl d hL hOD hNE hND
    constructor
    · intro hMk
      have hE : ensure_output_directory_exists env args = ([Event.makedirs d], none) := by
        simp [ensure_output_directory_exists, hOD, truthy, hNE, hND, hMk]
      obtain ⟨tail2, h1, h2⟩ := process_files_events_tail env args
        (args.sources.flatMap (get_files_from_source env.fs fuel))
        { events := [Event.makedirs d] }
      rcases hP : process_files env args
          (args.sources.flatMap (get_files_from_source env.fs fuel))
          { events := [Event.makedirs d] } with ⟨stf, oe⟩
      rw [hP] at h1
      simp only at h1
      have hev2 : (main env fuel args).events = stf.events := by
        cases oe with
        | some e =>
          unfold main
          rw [hL]
          dsimp only
          rw [hE]
          dsimp only
          rw [hP]
        | none =>
          unfold main
          rw [hL]
          dsimp only
          rw [hE]
          dsimp only
          rw [hP]
      rw [hev2, h1]
      simp
    · intro e hMkE
      have hE : ensure_output_directory_exists env args =
          ([Event.makedirs d], some e) := by
        simp [ensure_output_directory_exists, hOD, truthy, hNE, hND, hMkE]
      unfold main
      rw [hL]
      dsimp only
      rw [hE]

/-- C6 witness: with a configured output directory that does not exist,
the creation event is performed when os.makedirs succeeds, and a failing
os.makedirs aborts the run with only the attempted creation recorded. -/
theorem C6_makedirs_once_first_witness :
    Event.makedirs "out" ∈ (main envT 1 argsOut).events
    ∧ main envMkFail 1 argsOut =
        { events := [Event.makedirs "out"], err := some (PyErr.osError "denied") } :=
  ⟨((C6_makedirs_once_first envT 1 argsOut).2.2 30 "out" rfl rfl rfl rfl).1 rfl,
   ((C6_makedirs_once_first envMkFail 1 argsOut).2.2 30 "out" rfl rfl rfl rfl).2
     (PyErr.osError "denied") rfl⟩

/-- C7: the rendered table is the header row, then a separator row whose
dash runs match each header length, then one row per registry record,
the records sorted ascending by the pair of PatientID and
AccessionNumber; each row places the accession number and patient id in
columns left-justified to a minimum width of sixteen characters and the
patient name unpadded. -/
theorem C7_render_sorted (registry : List ConvertedStudy) :
    renderTable registry = headerLine :: sepLine ::
        (sortStudies registry).map
          (fun s => formatRow s.AccessionNumber s.PatientID s.PatientName)
    ∧ (sortStudies registry).Perm registry
    ∧ List.Sorted keyRel (sortStudies registry)
    ∧ (renderTable registry).length = registry.length + 2
    ∧ (∀ a b c, formatRow a b c = ljust 16 a ++ " " ++ ljust 16 b ++ " " ++ c)
    ∧ sepLine = formatRow (dashesFor headerAccession) (dashesFor headerPatientID)
        (dashesFor headerPatientName)
    ∧ (dashesFor headerAccession).data.length = headerAccession.data.length
    ∧ (dashesFor headerPatientID).data.length = headerPatientID.data.length
    ∧ (dashesFor headerPatientName).data.length = headerPatientName.data.length := by
  have hp := (List.perm_insertionSort keyRel registry).length_eq
  refine ⟨rfl, List.perm_insertionSort keyRel registry,
    List.sorted_insertionSort keyRel registry, ?_, fun a b c => rfl, rfl,
    by decide, by decide, by decide⟩
  simp [renderTable, sortStudies, hp]

/-- C8: when the quiet flag is set, nothing of the summary table is
printed, whatever the environment, the arguments and the final registry. -/
theorem C8_quiet_suppresses (env : Env) (fuel : Nat) (args : Args) :
    (main env fuel { args with quiet := true }).printed = [] := by
  unfold main
  repeat' split <;> first | rfl | simp | simp_all

/-- C9 counterexample: the log level WARN is not one of DEBUG, INFO,
WARNING, ERROR, CRITICAL, yet the run does not raise a configuration
error: it completes with no uncaught error and processes a file. -/
theorem C9_counterexample :
    (main envT2 1 { sources := ["good"], quiet := true, log_level := "WARN" }).err = none
    ∧ (main envT2 1 { sources := ["good"], quiet := true, log_level := "WARN" }).events
        ≠ [] := by
  decide

/-- C9 amended: a log level value whose upper-cased form reaches no
integer attribute of the logging module (the accepted names being
CRITICAL, FATAL, ERROR, WARNING, WARN, INFO, DEBUG and NOTSET, case
insensitively) makes the run raise ValueError before any source is
expanded and before any file is read, anonymized or written: the result
carries only that error, with no event, no log, no registry entry and no
output. -/
theorem C9_invalid_log_level (env : Env) (fuel : Nat) (args : Args)
    (h : loggingLevelAttr (pyUpper args.log_level) = none) :
    main env fuel args =
      { err := some (PyErr.valueError ("Invalid log level: " ++ args.log_level)) } := by
  unfold main
  rw [h]

/-- C9 witness: the amended claim applied to the concrete invalid level
VERBOSE. -/
theorem C9_invalid_log_level_witness :
    main envT 1 { log_level := "VERBOSE" } =
      { err := some (PyErr.valueError ("Invalid log level: " ++ "VERBOSE")) } :=
  C9_invalid_log_level envT 1 { log_level := "VERBOSE" } rfl

/-- C10: when quiet is not set and the run completes without an uncaught
error with an empty registry, the header row and the dash separator row
are still printed, producing a table with zero data rows. -/
theorem C10_empty_registry_table (env : Env) (fuel : Nat) (args : Args)
    (hq : args.quiet = false) (he : (main env fuel args).err = none)
    (hr : (main env fuel args).registry = []) :
    (main env fuel args).printed = [headerLine, sepLine] := by
  unfold main at he hr ⊢
  cases hL : loggingLevelAttr (pyUpper args.log_level) with
  | none =>
    rw [hL] at he
    dsimp only at he
    exact Option.noConfusion he
  | some lvl =>
    rw [hL] at he hr
    dsimp only at he hr ⊢
    rcases hE : ensure_output_directory_exists env args with ⟨evs, oe⟩
    rw [hE] at he hr
    cases oe with
    | some e =>
      dsimp only at he
      exact Option.noConfusion he
    | none =>
      dsimp only at he hr
      rcases hP : process_files env args
          (args.sources.flatMap (get_files_from_source env.fs fuel))
          { events := evs } with ⟨stf, oe2⟩
      rw [hP] at he hr
      cases oe2 with
      | some e =>
        dsimp only at he
        exact Option.noConfusion he
      | none =>
        dsimp only at hr
        dsimp only
        rw [hP]
        dsimp only
        rw [hq]
        simp [renderTable, sortStudies, hr]

/-- C10 witness: a run over no sources, quiet unset: the printed output
is exactly the header row and the separator row. -/
theorem C10_empty_registry_table_witness :
    (main envT 1 {}).printed = [headerLine, sepLine] :=
  C10_empty_registry_table envT 1 {} rfl rfl rfl

end Dicognito
